import Mathlib

/-!
Verification development for `full_stack_dr_plans_precheck.py`, a sequential
disaster-recovery precheck orchestrator.  The Python source is shallowly
embedded below: pure helpers (`is_valid_ocid`, `normalize_region`,
`prepare_region_file` naming) become Lean functions; the stateful orchestrator
(`run_prechecks`, `send_notification`, `list_active_dr_plans`) becomes explicit
state passing over a record of filesystem/notification events, with the
external OCI control-plane modelled as an environment of oracles.

Python `re` semantics are embedded faithfully: each pattern in the source is
anchored `^...$`, and in Python `$` matches either at the end of the string or
just before a trailing newline; `pyMatchAnchored` reproduces that.  Python
`str.split(sep)` is embedded as `pySplit`; `sys.exit` inside a
`try/except Exception` block escapes (SystemExit is a BaseException), which the
model of `send_notification` reproduces via `SnOut.sysExit1`.
-/

/-! ### Character classes and deterministic matchers for the three regexes -/

/-- Character class `[a-z0-9]` from `REGION_PATTERN`. -/
def isLowerDigit (c : Char) : Bool :=
  ('a' ≤ c && c ≤ 'z') || ('0' ≤ c && c ≤ '9')

/-- Inclusive codepoint ranges of Unicode general category Nd (decimal
digit), Unicode 15.0: the set matched by Python's `\d` when the pattern is
compiled without `re.ASCII`, as `REGION_PATTERN` is. -/
def ndDigitRanges : List (Nat × Nat) :=
  [(0x30, 0x39),       -- ASCII
   (0x660, 0x669),     -- Arabic-Indic
   (0x6F0, 0x6F9),     -- Extended Arabic-Indic
   (0x7C0, 0x7C9),     -- NKo
   (0x966, 0x96F),     -- Devanagari
   (0x9E6, 0x9EF),     -- Bengali
   (0xA66, 0xA6F),     -- Gurmukhi
   (0xAE6, 0xAEF),     -- Gujarati
   (0xB66, 0xB6F),     -- Oriya
   (0xBE6, 0xBEF),     -- Tamil
   (0xC66, 0xC6F),     -- Telugu
   (0xCE6, 0xCEF),     -- Kannada
   (0xD66, 0xD6F),     -- Malayalam
   (0xDE6, 0xDEF),     -- Sinhala Lith
   (0xE50, 0xE59),     -- Thai
   (0xED0, 0xED9),     -- Lao
   (0xF20, 0xF29),     -- Tibetan
   (0x1040, 0x1049),   -- Myanmar
   (0x1090, 0x1099),   -- Myanmar Shan
   (0x17E0, 0x17E9),   -- Khmer
   (0x1810, 0x1819),   -- Mongolian
   (0x1946, 0x194F),   -- Limbu
   (0x19D0, 0x19D9),   -- New Tai Lue
   (0x1A80, 0x1A89),   -- Tai Tham Hora
   (0x1A90, 0x1A99),   -- Tai Tham Tham
   (0x1B50, 0x1B59),   -- Balinese
   (0x1BB0, 0x1BB9),   -- Sundanese
   (0x1C40, 0x1C49),   -- Lepcha
   (0x1C50, 0x1C59),   -- Ol Chiki
   (0xA620, 0xA629),   -- Vai
   (0xA8D0, 0xA8D9),   -- Saurashtra
   (0xA900, 0xA909),   -- Kayah Li
   (0xA9D0, 0xA9D9),   -- Javanese
   (0xA9F0, 0xA9F9),   -- Myanmar Tai Laing
   (0xAA50, 0xAA59),   -- Cham
   (0xABF0, 0xABF9),   -- Meetei Mayek
   (0xFF10, 0xFF19),   -- Fullwidth
   (0x104A0, 0x104A9), -- Osmanya
   (0x10D30, 0x10D39), -- Hanifi Rohingya
   (0x11066, 0x1106F), -- Brahmi
   (0x110F0, 0x110F9), -- Sora Sompeng
   (0x11136, 0x1113F), -- Chakma
   (0x111D0, 0x111D9), -- Sharada
   (0x112F0, 0x112F9), -- Khudawadi
   (0x11450, 0x11459), -- Newa
   (0x114D0, 0x114D9), -- Tirhuta
   (0x11650, 0x11659), -- Modi
   (0x116C0, 0x116C9), -- Takri
   (0x11730, 0x11739), -- Ahom
   (0x118E0, 0x118E9), -- Warang Citi
   (0x11950, 0x11959), -- Dives Akuru
   (0x11C50, 0x11C59), -- Bhaiksuki
   (0x11D50, 0x11D59), -- Masaram Gondi
   (0x11DA0, 0x11DA9), -- Gunjala Gondi
   (0x11F50, 0x11F59), -- Kawi
   (0x16A60, 0x16A69), -- Mro
   (0x16AC0, 0x16AC9), -- Tangsa
   (0x16B50, 0x16B59), -- Pahawh Hmong
   (0x1D7CE, 0x1D7FF), -- Mathematical digit variants
   (0x1E140, 0x1E149), -- Nyiakeng Puachue Hmong
   (0x1E2F0, 0x1E2F9), -- Wancho
   (0x1E4F0, 0x1E4F9), -- Nag Mundari
   (0x1E950, 0x1E959), -- Adlam
   (0x1FBF0, 0x1FBF9)] -- Segmented digits

/-- Character class `\d` from `REGION_PATTERN`: Python's `re` matches any
Unicode decimal digit (category Nd) here, since the pattern is compiled
without `re.ASCII`. -/
def isDigitCh (c : Char) : Bool :=
  ndDigitRanges.any (fun r => decide (r.1 ≤ c.toNat ∧ c.toNat ≤ r.2))

/-- Character class `[^.]` from the OCID patterns. -/
def noDot (c : Char) : Bool := c != '.'

/-- Matcher for `([^.]+\.){n-1}[^.]+` consuming the whole input: `n`
dot-delimited nonempty dot-free segments.  Deterministic because `[^.]+` is
greedy and the following literal `.` is outside the class. -/
def segsCore : Nat → List Char → Bool
  | 0, _ => false
  | 1, cs => !cs.isEmpty && cs.all noDot
  | n+2, cs =>
      let a := cs.takeWhile noDot
      match cs.dropWhile noDot with
      | '.' :: r2 => !a.isEmpty && segsCore (n+1) r2
      | _ => false

/-- Consume a literal string at the head of the input, returning the rest. -/
def dropLit : List Char → List Char → Option (List Char)
  | [], cs => some cs
  | p :: ps, c :: cs => if c = p then dropLit ps cs else none
  | _ :: _, [] => none

/-- Core matcher for `^ocid1\.<service>\.[^.]+\.[^.]+\.[^.]+$` given the
literal prefix `ocid1.<service>.` (the `$` anchor is applied by the caller). -/
def ocidCore (pre : List Char) (cs : List Char) : Bool :=
  match dropLit pre cs with
  | some rest => segsCore 3 rest
  | none => false

/-- Core matcher for `^[a-z0-9]{2}-[a-z0-9]+-\d{1}$` (without the `$`
end-of-string-or-newline disjunction).  Deterministic: the greedy `[a-z0-9]+`
run is forced because the following literal `-` is outside the class. -/
def regionCore : List Char → Bool
  | c1 :: c2 :: '-' :: rest =>
      isLowerDigit c1 && isLowerDigit c2 &&
      (let mid := rest.takeWhile isLowerDigit
       !mid.isEmpty &&
         match rest.dropWhile isLowerDigit with
         | ['-', d] => isDigitCh d
         | _ => false)
  | _ => false

/-- Python `pattern.match` for a `^...$`-anchored pattern: the core must match
the whole string, or the whole string minus a single trailing newline (Python
`$` also matches just before a final newline). -/
def pyMatchAnchored (core : List Char → Bool) (s : String) : Bool :=
  core s.data ||
    (match s.data.getLast? with
     | some c => (c == '\n') && core s.data.dropLast
     | none => false)

/-- Embeds `DRPG_OCID_PATTERN.match` from the source
(`^ocid1\.drprotectiongroup\.[^.]+\.[^.]+\.[^.]+$`). -/
def DRPG_OCID_PATTERN_match (s : String) : Bool :=
  pyMatchAnchored (ocidCore "ocid1.drprotectiongroup.".data) s

/-- Embeds `TOPIC_OCID_PATTERN.match` from the source
(`^ocid1\.onstopic\.[^.]+\.[^.]+\.[^.]+$`). -/
def TOPIC_OCID_PATTERN_match (s : String) : Bool :=
  pyMatchAnchored (ocidCore "ocid1.onstopic.".data) s

/-- Embeds `REGION_PATTERN.match` from the source
(`^[a-z0-9]{2}-[a-z0-9]+-\d{1}$`). -/
def REGION_PATTERN_match (s : String) : Bool :=
  pyMatchAnchored regionCore s

/-- Embeds `is_valid_ocid(ocid, pattern) = bool(pattern.match(ocid))`. -/
def is_valid_ocid (ocid : String) (patternMatch : String → Bool) : Bool :=
  patternMatch ocid

/-- Embeds the `REGION_MAPPING` dict from the source. -/
def REGION_MAPPING : List (String × String) :=
  [("iad", "us-ashburn-1"), ("phx", "us-phoenix-1")]

/-- Embeds `normalize_region`: return the input if it matches
`REGION_PATTERN`, otherwise `REGION_MAPPING.get(region)`. -/
def normalize_region (region : String) : Option String :=
  if REGION_PATTERN_match region then some region
  else REGION_MAPPING.lookup region

/-- Python `str.split(sep)` on character lists (helper with accumulator). -/
def pySplitAux (sep : Char) : List Char → List Char → List (List Char)
  | [], acc => [acc.reverse]
  | c :: cs, acc =>
      if c = sep then acc.reverse :: pySplitAux sep cs []
      else pySplitAux sep cs (c :: acc)

/-- Python `str.split(sep)`: splits on every occurrence of `sep`, keeping
empty parts (e.g. `"a..b".split "." = ["a", "", "b"]`). -/
def pySplit (sep : Char) (cs : List Char) : List (List Char) :=
  pySplitAux sep cs []


/-! ### Data model: snapshots returned by the vendor API -/

/-- Snapshot of a DR protection group, the `.data` of
`get_dr_protection_group`: the fields the script reads. -/
structure Drpg where
  id : String
  display_name : String
  role : String
  lifecycle_state : String
  peer_id : String
  peer_region : String
deriving DecidableEq

/-- Snapshot of a DR plan, an element of `list_dr_plans(...).data.items`:
the fields the script reads. -/
structure Plan where
  id : String
  display_name : String
  type : String
  lifecycle_state : String
deriving DecidableEq

/-- Embeds the `DrPlanType` enumeration: the four member values. -/
def knownPlanTypes : List String :=
  ["SWITCHOVER", "FAILOVER", "START_DRILL", "STOP_DRILL"]

/-- Embeds `transitional_states` from `list_active_dr_plans`. -/
def transitional_states : List String :=
  ["CREATING", "UPDATING", "DELETING"]

/-! ### Observable effects of a run -/

/-- Observable effect events, in program order: ephemeral region-file
creation/deletion (files numbered by creation order), client configuration
against a region from a given region file, protection-group fetches, plan
listings, precheck-execution creations, notifier invocations, and published
messages. -/
inductive Event
  | created (fid : Nat)
  | deleted (fid : Nat)
  | configuredClient (region : String) (fid : Nat)
  | fetchedDrpg (ocid : String)
  | listedPlans (gid : String)
  | execCreated (planId : String)
  | notifyCalled (name : String) (ocid : String) (topic : String)
  | published (topic : String) (title : String) (body : String)
deriving DecidableEq

/-- Mutable run state: which ephemeral region files currently exist (by
creation index), the next creation index, the event trace so far, and the
contents of the error-only log (one entry per `logger.error` call). -/
structure St where
  files : List Nat := []
  nextId : Nat := 0
  events : List Event := []
  errLog : List String := []
deriving DecidableEq

/-- How the process ends: fall off the end of `run_prechecks` (exit status 0),
`sys.exit(1)`, or an unhandled exception (nonzero exit with a traceback). -/
inductive Outcome
  | normal
  | exit1
  | crash (exc : String)
deriving DecidableEq

/-- Result of a whole run: final state plus how the process ended. -/
structure Run where
  st : St
  outcome : Outcome
deriving DecidableEq

/-- Oracles for the external control plane: `get_dr_protection_group`
(`none` models a raised ServiceError/Exception), `list_dr_plans` without and
with the `lifecycle_state="ACTIVE"` filter (`none` models a raised
exception), whether `publish_message` succeeds, and the final lifecycle state
reported for the precheck execution created for a given plan id. -/
structure Env where
  getDrpg : String → Option Drpg
  listAll : String → Option (List Plan)
  listActive : String → Option (List Plan)
  publishOk : Bool
  execFinal : String → String

/-- Append one event to the trace. -/
def addEvent (st : St) (e : Event) : St :=
  { st with events := st.events ++ [e] }

/-- Record a `logger.error` call (the error-only log file grows). -/
def logErr (st : St) (m : String) : St :=
  { st with errLog := st.errLog ++ [m] }

/-- Contents of the error log as read back by `error_log.read_text()`
(formatting collapsed to the raw messages, newline separated). -/
def renderLog (l : List String) : String :=
  String.intercalate "\n" l

/-- Embeds `prepare_region_file`: writes a fresh uniquely-named region file
(timestamp-suffixed in the source, creation-indexed here) and returns it. -/
def prepare_region_file (st : St) : St × Nat :=
  let fid := st.nextId
  ({ st with nextId := fid + 1, files := fid :: st.files,
             events := st.events ++ [Event.created fid] }, fid)

/-- Embeds `Path.unlink()`: deletes the file if it exists; returns `false`
(Python raises FileNotFoundError) when the file does not exist. -/
def unlink (st : St) (fid : Nat) : St × Bool :=
  if fid ∈ st.files then
    ({ st with files := st.files.erase fid,
               events := st.events ++ [Event.deleted fid] }, true)
  else (st, false)

/-- Python truthiness of the optional `topic_ocid` argument
(`None` and `""` are falsy). -/
def topicTruthy : Option String → Bool
  | none => false
  | some s => s != ""

/-! ### The program: OCI interaction wrappers -/

/-- Embeds `get_drpg_details`: calls `get_dr_protection_group`; on a raised
error, logs it and returns `None`. -/
def get_drpg_details (env : Env) (ocid : String) (st : St) : St × Option Drpg :=
  let st := addEvent st (Event.fetchedDrpg ocid)
  match env.getDrpg ocid with
  | some d => (st, some d)
  | none => (logErr st ("Service error fetching " ++ ocid), none)

/-- Result of `list_active_dr_plans` seen as a Python value: a list of plans,
a lifecycle-state string of the first transitional plan, or `None`. -/
inductive PlanListResult
  | lst (plans : List Plan)
  | transitional (s : String)
  | failure
deriving DecidableEq

/-- Embeds `list_active_dr_plans`: list all plans; return the state of the
first transitional plan if any; otherwise re-query with the ACTIVE filter and
return those items; on any raised exception return `None`. -/
def list_active_dr_plans (env : Env) (gid : String) (st : St) :
    St × PlanListResult :=
  let st := addEvent st (Event.listedPlans gid)
  match env.listAll gid with
  | none => (logErr st "Failed to list DR plans", PlanListResult.failure)
  | some plans =>
    match plans.find? (fun p => transitional_states.contains p.lifecycle_state) with
    | some p =>
        (logErr st ("Found transitional plan: " ++ p.display_name ++
                    " in state " ++ p.lifecycle_state),
         PlanListResult.transitional p.lifecycle_state)
    | none =>
      match env.listActive gid with
      | none => (logErr st "Failed to list DR plans", PlanListResult.failure)
      | some act => (st, PlanListResult.lst act)

/-- Python `len(...)` applied to a `PlanListResult` value: defined on lists
and strings, raises TypeError (modelled as `none`) on `None`. -/
def pyLen : PlanListResult → Option Nat
  | PlanListResult.lst l => some l.length
  | PlanListResult.transitional s => some s.length
  | PlanListResult.failure => none

/-- How `send_notification` hands control back: a normal return, or a
`SystemExit(1)` escaping it (raised by the `sys.exit(1)` inside its `try`
block, which `except Exception` does not catch). -/
inductive SnOut
  | returned
  | sysExit1
deriving DecidableEq

/-- Embeds `send_notification`: build the message body from the error-log
contents, take the topic OCID's fourth dot-segment as its region code,
resolve it (`sys.exit(1)` if unresolvable — this SystemExit escapes the
`except Exception` handler), write a fresh region file, publish, then delete
the region file.  Any ordinary exception (missing segment, publish failure)
is caught and logged; on a publish failure the region file is not deleted. -/
def send_notification (env : Env) (drpg_name drpg_ocid topic_ocid : String)
    (errContents : String) (st : St) : St × SnOut :=
  let st := addEvent st (Event.notifyCalled drpg_name drpg_ocid topic_ocid)
  let content := drpg_name ++ ": " ++ drpg_ocid ++ "\n\n" ++ errContents
  match (pySplit '.' topic_ocid.data).get? 3 with
  | none =>
      (logErr st "Failed to send notification: list index out of range",
       SnOut.returned)
  | some codeChars =>
    match normalize_region (String.mk codeChars) with
    | none =>
        (logErr st "Unable to determine valid region for the topic.",
         SnOut.sysExit1)
    | some region =>
      let pr := prepare_region_file st
      let st := addEvent pr.1 (Event.configuredClient region pr.2)
      let subject := "FSDR Precheck Failed for " ++ drpg_name ++ " - " ++ drpg_ocid
      if env.publishOk then
        let st := addEvent st (Event.published topic_ocid subject content)
        ((unlink st pr.2).1, SnOut.returned)
      else
        (logErr st "Failed to send notification: publish error", SnOut.returned)

/-- Embeds the `if topic_ocid: send_notification(...)` guards in
`run_prechecks`. -/
def maybe_notify (env : Env) (topic : Option String) (name ocid : String)
    (st : St) : St × SnOut :=
  match topic with
  | some t =>
      if t != "" then send_notification env name ocid t (renderLog st.errLog) st
      else (st, SnOut.returned)
  | none => (st, SnOut.returned)

/-- Embeds the recurring error-exit shape `region_file.unlink(); if
topic_ocid: send_notification(...); sys.exit(1)`.  A failing unlink raises
FileNotFoundError instead; a SystemExit out of the notifier still ends the
process with status 1. -/
def error_exit (env : Env) (topic : Option String) (name ocid : String)
    (fid : Nat) (st : St) : Run :=
  let u := unlink st fid
  if u.2 then
    { st := (maybe_notify env topic name ocid u.1).1, outcome := Outcome.exit1 }
  else
    { st := u.1, outcome := Outcome.crash "FileNotFoundError" }

/-! ### The program: orchestrator stages of `run_prechecks` -/

/-- Embeds the per-plan loop (source lines 272-302): `DrPlanType(plan.type)`
raises ValueError on an unknown type string (before any execution is
created); otherwise an execution is created, the script polls (the poll over
`get_drpg_details` raises AttributeError inside `oci.wait_until` if the fetch
returned `None`), and the final execution status is logged. -/
def planLoop (env : Env) (sid : String) : List Plan → St → St × Option Outcome
  | [], st => (st, none)
  | p :: rest, st =>
    if knownPlanTypes.contains p.type then
      let st := addEvent st (Event.execCreated p.id)
      let g := get_drpg_details env sid st
      match g.2 with
      | none => (g.1, some (Outcome.crash "AttributeError"))
      | some _ =>
          let st := if env.execFinal p.id == "SUCCEEDED" then g.1
                    else logErr g.1 ("Precheck failed: " ++ p.display_name)
          planLoop env sid rest st
    else (st, some (Outcome.crash "ValueError"))

/-- Embeds the finalization (source lines 304-310): notify if the error log
is non-empty and a topic was given (a SystemExit out of the notifier skips
the remaining cleanup), then delete the region file and error log if they
exist. -/
def finalize (env : Env) (topic : Option String) (sname sid : String)
    (fid : Nat) (st : St) : Run :=
  let n := if st.errLog ≠ [] ∧ topicTruthy topic = true then
             maybe_notify env topic sname sid st
           else (st, SnOut.returned)
  match n.2 with
  | SnOut.sysExit1 => { st := n.1, outcome := Outcome.exit1 }
  | SnOut.returned =>
      let st := n.1
      let st := if fid ∈ st.files then (unlink st fid).1 else st
      { st := st, outcome := Outcome.normal }

/-- Embeds source lines 258-310: the `len(dr_plans)` check runs first (a
TypeError on `None`), then the transitional-string check, then the list
branch running the per-plan loop and the finalization.  A value that is
neither `None`, a string, nor a list would fall off the function (exit 0). -/
def with_plans (env : Env) (topic : Option String) (sname sid : String)
    (fid : Nat) (st : St) (res : PlanListResult) : Run :=
  match pyLen res with
  | none => { st := st, outcome := Outcome.crash "TypeError" }
  | some n =>
    if n == 0 then
      error_exit env topic sname sid fid
        (logErr st ("No Active DR plans found in " ++ sname ++ "."))
    else
      match res with
      | PlanListResult.transitional s =>
          error_exit env topic sname sid fid
            (logErr st ("First transitional state found: " ++ s))
      | PlanListResult.lst plans =>
          let l := planLoop env sid plans st
          match l.2 with
          | some out => { st := l.1, outcome := out }
          | none => finalize env topic sname sid fid l.1
      | PlanListResult.failure => { st := st, outcome := Outcome.normal }

/-- Embeds source lines 243-256: read the standby view from the current
snapshot, require lifecycle state ACTIVE, then enumerate its plans. -/
def with_standby (env : Env) (topic : Option String) (fid : Nat) (d : Drpg)
    (st : St) : Run :=
  if d.lifecycle_state != "ACTIVE" then
    error_exit env topic d.display_name d.id fid
      (logErr st "Standby DRPG is not active.")
  else
    let l := list_active_dr_plans env d.id st
    with_plans env topic d.display_name d.id fid l.1 l.2

/-- Embeds source lines 213-241: role checks.  UNCONFIGURED is an error-exit.
PRIMARY deletes the current region file, resolves the peer region (on
failure the second `region_file.unlink()` raises FileNotFoundError because
the file is already gone), writes a region file for the peer, re-fetches the
protection group under the peer OCID and continues with that snapshot as the
standby view.  Any other role keeps the current snapshot. -/
def with_drpg (env : Env) (topic : Option String) (docid : String) (fid : Nat)
    (d : Drpg) (st : St) : Run :=
  if d.role == "UNCONFIGURED" then
    error_exit env topic d.display_name docid fid
      (logErr st "DRPG is unconfigured.")
  else if d.role == "PRIMARY" then
    let u := unlink st fid
    if u.2 then
      match normalize_region d.peer_region with
      | none =>
          let st := logErr u.1 "Unknown peer region."
          let u2 := unlink st fid
          if u2.2 then { st := u2.1, outcome := Outcome.exit1 }
          else { st := u2.1, outcome := Outcome.crash "FileNotFoundError" }
      | some r2 =>
          let pr := prepare_region_file u.1
          let st := addEvent pr.1 (Event.configuredClient r2 pr.2)
          let g := get_drpg_details env d.peer_id st
          match g.2 with
          | none =>
              error_exit env topic "" d.peer_id pr.2
                (logErr g.1 "Failed to get peer DRPG details.")
          | some d2 => with_standby env topic pr.2 d2 g.1
    else { st := u.1, outcome := Outcome.crash "FileNotFoundError" }
  else with_standby env topic fid d st

/-- Embeds `run_prechecks` (source lines 185-310): validate both OCIDs,
resolve the region from the DRPG OCID's fourth dot-segment, write the region
file and configure the client, fetch the protection group (an error-exit on
failure, notifying with an empty display name), then continue through the
role, standby, plan-listing, loop and finalization stages. -/
def run_prechecks (env : Env) (docid : String) (topic : Option String) : Run :=
  let st : St := {}
  if !is_valid_ocid docid DRPG_OCID_PATTERN_match then
    { st := logErr st ("Invalid DRPG OCID format: " ++ docid),
      outcome := Outcome.exit1 }
  else if topicTruthy topic && !is_valid_ocid (topic.getD "") TOPIC_OCID_PATTERN_match then
    { st := logErr st "Invalid Notification Topic OCID format",
      outcome := Outcome.exit1 }
  else
    match (pySplit '.' docid.data).get? 3 with
    | none => { st := st, outcome := Outcome.crash "IndexError" }
    | some codeChars =>
      match normalize_region (String.mk codeChars) with
      | none =>
          { st := logErr st "Unable to determine region for DRPG.",
            outcome := Outcome.exit1 }
      | some region =>
        let pr := prepare_region_file st
        let st := addEvent pr.1 (Event.configuredClient region pr.2)
        let g := get_drpg_details env docid st
        match g.2 with
        | none => error_exit env topic "" docid pr.2 g.1
        | some d => with_drpg env topic docid pr.2 d g.1

/-! ### Concrete scenarios used by counterexamples and witnesses -/

/-- A standby protection group in the ACTIVE state whose id is the OCID the
script is invoked with. -/
def standbyDrpg : Drpg :=
  { id := "ocid1.drprotectiongroup.oc1.iad.g1", display_name := "G1",
    role := "STANDBY", lifecycle_state := "ACTIVE",
    peer_id := "", peer_region := "" }

/-- Environment where every `list_dr_plans` call raises: `get` succeeds with
`standbyDrpg`, both listings fail, publishing would succeed. -/
def envListFail : Env :=
  { getDrpg := fun _ => some standbyDrpg,
    listAll := fun _ => none,
    listActive := fun _ => none,
    publishOk := true,
    execFinal := fun _ => "SUCCEEDED" }

/-- Environment whose API calls are never reached or always succeed in
publishing; used where only the notifier runs. -/
def envPub : Env :=
  { getDrpg := fun _ => none,
    listAll := fun _ => none,
    listActive := fun _ => none,
    publishOk := true,
    execFinal := fun _ => "" }

/-- A primary protection group with a resolvable peer region. -/
def primaryDrpg : Drpg :=
  { id := "ocid1.drprotectiongroup.oc1.iad.p1", display_name := "P1",
    role := "PRIMARY", lifecycle_state := "ACTIVE",
    peer_id := "ocid1.drprotectiongroup.oc1.phx.s1", peer_region := "phx" }

/-- The peer (standby) snapshot fetched after the primary switch. -/
def peerDrpg : Drpg :=
  { id := "ocid1.drprotectiongroup.oc1.phx.s1", display_name := "S1",
    role := "STANDBY", lifecycle_state := "ACTIVE",
    peer_id := "ocid1.drprotectiongroup.oc1.iad.p1", peer_region := "iad" }

/-- Environment for the primary-to-peer scenario: fetching the invocation
OCID yields `primaryDrpg`, fetching the peer OCID yields `peerDrpg`, the
peer's plan listings succeed with an empty list. -/
def envPrimary : Env :=
  { getDrpg := fun ocid =>
      if ocid = "ocid1.drprotectiongroup.oc1.iad.p1" then some primaryDrpg
      else if ocid = "ocid1.drprotectiongroup.oc1.phx.s1" then some peerDrpg
      else none,
    listAll := fun _ => some [],
    listActive := fun _ => some [],
    publishOk := true,
    execFinal := fun _ => "SUCCEEDED" }

/-- An ACTIVE plan of a known type. -/
def planGood : Plan :=
  { id := "plan-good", display_name := "PG", type := "SWITCHOVER",
    lifecycle_state := "ACTIVE" }

/-- An ACTIVE plan whose type string is outside the `DrPlanType`
enumeration. -/
def planBad : Plan :=
  { id := "plan-bad", display_name := "PB", type := "MYSTERY",
    lifecycle_state := "ACTIVE" }

/-- An ACTIVE plan of a known type listed after the unknown-typed one. -/
def planAfter : Plan :=
  { id := "plan-after", display_name := "PA", type := "FAILOVER",
    lifecycle_state := "ACTIVE" }

/-- A plan sitting in the transitional UPDATING state. -/
def planUpdating : Plan :=
  { id := "plan-upd", display_name := "PU", type := "SWITCHOVER",
    lifecycle_state := "UPDATING" }

/-- Environment where the active-plan list is a good plan, then a plan of
unknown type, then another good plan. -/
def envBadType : Env :=
  { getDrpg := fun _ => some standbyDrpg,
    listAll := fun _ => some [planGood, planBad, planAfter],
    listActive := fun _ => some [planGood, planBad, planAfter],
    publishOk := true,
    execFinal := fun _ => "SUCCEEDED" }

/-- Environment whose unfiltered plan listing contains a transitional plan. -/
def envTransitional : Env :=
  { getDrpg := fun _ => some standbyDrpg,
    listAll := fun _ => some [planGood, planUpdating],
    listActive := fun _ => some [planGood],
    publishOk := true,
    execFinal := fun _ => "SUCCEEDED" }


/-- Written from the spec's words (section 8, "fixed three-segment identifier
shape"): the string is the fixed prefix `ocid1.drprotectiongroup.` followed by
three dot-delimited segments. -/
def specShapeDRPG (s : String) : Prop :=
  ∃ a b c : List Char,
    a ≠ [] ∧ b ≠ [] ∧ c ≠ [] ∧
    (∀ x ∈ a, x ≠ '.') ∧ (∀ x ∈ b, x ≠ '.') ∧ (∀ x ∈ c, x ≠ '.') ∧
    s.data = "ocid1.drprotectiongroup.".data ++ (a ++ '.' :: (b ++ '.' :: c))

/-- The topic OCID either has no fourth dot-segment or that segment resolves
through `normalize_region`; under this condition the `sys.exit(1)` inside
`send_notification` is unreachable. -/
def topicRegionResolvable (topic : Option String) : Prop :=
  ∀ t, topic = some t → ∀ cs, (pySplit '.' t.data).get? 3 = some cs →
    normalize_region (String.mk cs) ≠ none

/-! ### Lemmas about the matcher building blocks -/

theorem dropLit_eq_some (p : List Char) :
    ∀ cs r, dropLit p cs = some r ↔ cs = p ++ r := by
  induction p with
  | nil =>
      intro cs r
      simp [dropLit]
  | cons x xs ih =>
      intro cs r
      cases cs with
      | nil => simp [dropLit]
      | cons c cs' =>
          by_cases hc : c = x
          · subst hc
            simp [dropLit, ih]
          · simp [dropLit, hc]

theorem takeWhile_stops (p : Char → Bool) (a : List Char)
    (ha : ∀ x ∈ a, p x = true) (y : Char) (hy : p y = false) (r : List Char) :
    (a ++ y :: r).takeWhile p = a ∧ (a ++ y :: r).dropWhile p = y :: r := by
  induction a with
  | nil => simp [List.takeWhile, List.dropWhile, hy]
  | cons x xs ih =>
      have hx : p x = true := ha x (List.mem_cons_self x xs)
      have ih' := ih (fun z hz => ha z (List.mem_cons_of_mem x hz))
      simp [List.takeWhile, List.dropWhile, hx, ih'.1, ih'.2]

theorem segsCore_one (cs : List Char) :
    segsCore 1 cs = true ↔ cs ≠ [] ∧ ∀ x ∈ cs, x ≠ '.' := by
  simp [segsCore, List.all_eq_true, noDot, List.isEmpty_iff]

theorem segsCore_succ (n : Nat) (cs : List Char) :
    segsCore (n + 2) cs = true ↔
      ∃ a r, a ≠ [] ∧ (∀ x ∈ a, x ≠ '.') ∧ cs = a ++ '.' :: r ∧
        segsCore (n + 1) r = true := by
  constructor
  · intro h
    simp only [segsCore] at h
    split at h
    next heq =>
      rename_i r2
      simp only [Bool.and_eq_true, Bool.not_eq_true'] at h
      refine ⟨cs.takeWhile noDot, r2, ?_, ?_, ?_, h.2⟩
      · simpa [List.isEmpty_iff] using h.1
      · intro x hx
        have := List.mem_takeWhile_imp hx
        simpa [noDot] using this
      · conv_lhs => rw [← List.takeWhile_append_dropWhile (p := noDot) (l := cs)]
        rw [heq]
    next => exact absurd h (by simp)
  · rintro ⟨a, r, hne, hdot, rfl, hrec⟩
    have hstop := takeWhile_stops noDot a
      (fun x hx => by simpa [noDot] using hdot x hx) '.' (by simp [noDot]) r
    simp only [segsCore, hstop.1, hstop.2]
    simp [List.isEmpty_iff, hne, hrec]

theorem ocidCore_iff (pre cs : List Char) :
    ocidCore pre cs = true ↔
      ∃ a b c, a ≠ [] ∧ b ≠ [] ∧ c ≠ [] ∧
        (∀ x ∈ a, x ≠ '.') ∧ (∀ x ∈ b, x ≠ '.') ∧ (∀ x ∈ c, x ≠ '.') ∧
        cs = pre ++ (a ++ '.' :: (b ++ '.' :: c)) := by
  constructor
  · intro h
    simp only [ocidCore] at h
    split at h
    next rest heq =>
      have hcs : cs = pre ++ rest := (dropLit_eq_some pre cs rest).1 heq
      have h3 := (segsCore_succ 1 rest).1 h
      obtain ⟨a, r, hane, hadot, hr, h2⟩ := h3
      have h2' := (segsCore_succ 0 r).1 h2
      obtain ⟨b, r', hbne, hbdot, hr', h1⟩ := h2'
      have h1' := (segsCore_one r').1 h1
      exact ⟨a, b, r', hane, hbne, h1'.1, hadot, hbdot, h1'.2,
        by rw [hcs, hr, hr']⟩
    next => exact absurd h (by simp)
  · rintro ⟨a, b, c, hane, hbne, hcne, hadot, hbdot, hcdot, rfl⟩
    have hdl : dropLit pre (pre ++ (a ++ '.' :: (b ++ '.' :: c))) =
        some (a ++ '.' :: (b ++ '.' :: c)) :=
      (dropLit_eq_some pre _ _).2 rfl
    simp only [ocidCore, hdl]
    refine (segsCore_succ 1 _).2 ⟨a, b ++ '.' :: c, hane, hadot, rfl, ?_⟩
    refine (segsCore_succ 0 _).2 ⟨b, c, hbne, hbdot, rfl, ?_⟩
    exact (segsCore_one c).2 ⟨hcne, hcdot⟩

theorem pyMatchAnchored_ocid (pre : List Char) (s : String) :
    pyMatchAnchored (ocidCore pre) s = true ↔ ocidCore pre s.data = true := by
  constructor
  · intro h
    simp only [pyMatchAnchored, Bool.or_eq_true] at h
    rcases h with h | h
    · exact h
    · split at h
      next c heq =>
        simp only [Bool.and_eq_true, beq_iff_eq] at h
        obtain ⟨hc, hcore⟩ := h
        subst hc
        obtain ⟨a, b, c, hane, hbne, hcne, hadot, hbdot, hcdot, hdrop⟩ :=
          (ocidCore_iff pre s.data.dropLast).1 hcore
        have hne : s.data ≠ [] := by
          intro hnil; rw [hnil] at heq; simp at heq
        have hlast : s.data.getLast hne = '\n' := by
          have h2 := List.getLast?_eq_getLast s.data hne
          rw [heq] at h2
          exact Option.some.inj h2.symm
        have hfull : s.data = s.data.dropLast ++ ['\n'] := by
          conv_lhs => rw [← List.dropLast_append_getLast hne, hlast]
        refine (ocidCore_iff pre s.data).2
          ⟨a, b, c ++ ['\n'], hane, hbne, by simp, hadot, hbdot, ?_, ?_⟩
        · intro x hx
          rcases List.mem_append.1 hx with hx | hx
          · exact hcdot x hx
          · simp at hx; subst hx; decide
        · rw [hfull, hdrop]; simp
      next => exact absurd h (by simp)
  · intro h
    simp [pyMatchAnchored, h]

/-! ### Lemmas about `pySplit` -/

theorem pySplitAux_no_sep (sep : Char) (a : List Char)
    (ha : ∀ x ∈ a, x ≠ sep) : ∀ acc,
    pySplitAux sep a acc = [acc.reverse ++ a] := by
  induction a with
  | nil => intro acc; simp [pySplitAux]
  | cons x xs ih =>
      intro acc
      have hx : x ≠ sep := ha x (List.mem_cons_self x xs)
      simp only [pySplitAux, if_neg hx]
      rw [ih (fun z hz => ha z (List.mem_cons_of_mem x hz))]
      simp

theorem pySplitAux_sep (sep : Char) (a : List Char)
    (ha : ∀ x ∈ a, x ≠ sep) (r : List Char) : ∀ acc,
    pySplitAux sep (a ++ sep :: r) acc =
      (acc.reverse ++ a) :: pySplitAux sep r [] := by
  induction a with
  | nil => intro acc; simp [pySplitAux]
  | cons x xs ih =>
      intro acc
      have hx : x ≠ sep := ha x (List.mem_cons_self x xs)
      simp only [List.cons_append, pySplitAux, if_neg hx, List.append_eq]
      rw [ih (fun z hz => ha z (List.mem_cons_of_mem x hz))]
      simp

/-- A string matching an OCID pattern with prefix `ocid1.<service>.` has a
fourth dot-segment, namely the region segment `b` of the shape. -/
theorem pySplit_ocid (svc : List Char) (hsvc : ∀ x ∈ svc, x ≠ '.')
    (a b c : List Char) (hadot : ∀ x ∈ a, x ≠ '.')
    (hbdot : ∀ x ∈ b, x ≠ '.') (hcdot : ∀ x ∈ c, x ≠ '.') :
    pySplit '.' ("ocid1.".data ++ (svc ++ '.' :: (a ++ '.' :: (b ++ '.' :: c)))) =
      ["ocid1".data, svc, a, b, c] := by
  have h5 : "ocid1.".data ++ (svc ++ '.' :: (a ++ '.' :: (b ++ '.' :: c))) =
      "ocid1".data ++ '.' :: (svc ++ '.' :: (a ++ '.' :: (b ++ '.' :: c))) := by
    simp
  rw [pySplit, h5]
  rw [pySplitAux_sep '.' "ocid1".data (by decide) _ []]
  rw [pySplitAux_sep '.' svc hsvc _ []]
  rw [pySplitAux_sep '.' a hadot _ []]
  rw [pySplitAux_sep '.' b hbdot _ []]
  rw [pySplitAux_no_sep '.' c hcdot []]
  simp

/-! ### C10: identifier validator versus the spec's three-segment shape -/

/-- C10 (confirmed).  For every string, `is_valid_ocid` with the DRPG pattern
returns true if and only if the string consists of the fixed prefix
`ocid1.drprotectiongroup.` followed by exactly three dot-delimited nonempty
segments. -/
theorem C10_validator_iff_shape (s : String) :
    is_valid_ocid s DRPG_OCID_PATTERN_match = true ↔ specShapeDRPG s := by
  unfold is_valid_ocid DRPG_OCID_PATTERN_match specShapeDRPG
  rw [pyMatchAnchored_ocid]
  exact ocidCore_iff _ _

/-- Witness for C10 at a concrete identifier. -/
theorem C10_validator_iff_shape_witness :
    is_valid_ocid "ocid1.drprotectiongroup.oc1.iad.abc" DRPG_OCID_PATTERN_match = true :=
  (C10_validator_iff_shape "ocid1.drprotectiongroup.oc1.iad.abc").mpr
    ⟨"oc1".data, "iad".data, "abc".data, by decide, by decide, by decide,
     by decide, by decide, by decide, by decide⟩

/-! ### C9: `normalize_region` case analysis and idempotence -/

/-- C9 (confirmed).  `normalize_region` returns an input matching the
canonical region shape unchanged, maps each key of the static short-code
table to its canonical form, returns `none` on every other input, and is
idempotent: whenever it returns a region, resolving that region again
returns it unchanged. -/
theorem C9_normalize_region_idempotent (s : String) :
    (REGION_PATTERN_match s = true → normalize_region s = some s) ∧
    normalize_region "iad" = some "us-ashburn-1" ∧
    normalize_region "phx" = some "us-phoenix-1" ∧
    (REGION_PATTERN_match s = false → s ≠ "iad" → s ≠ "phx" →
      normalize_region s = none) ∧
    (∀ r, normalize_region s = some r → normalize_region r = some r) := by
  refine ⟨?_, rfl, rfl, ?_, ?_⟩
  · intro h
    simp [normalize_region, h]
  · intro h h1 h2
    have b1 : (s == "iad") = false := beq_eq_false_iff_ne.mpr h1
    have b2 : (s == "phx") = false := beq_eq_false_iff_ne.mpr h2
    simp [normalize_region, h, REGION_MAPPING, List.lookup, b1, b2]
  · intro r hr
    by_cases h : REGION_PATTERN_match s = true
    · rw [normalize_region, if_pos h] at hr
      cases hr
      rw [normalize_region, if_pos h]
    · have h' : REGION_PATTERN_match s = false := by
        simpa using h
      rw [normalize_region, if_neg (by simp [h'])] at hr
      simp only [REGION_MAPPING, List.lookup] at hr
      by_cases h1 : s = "iad"
      · rw [show (s == "iad") = true from beq_iff_eq.mpr h1] at hr
        cases hr
        rfl
      · rw [show (s == "iad") = false from beq_eq_false_iff_ne.mpr h1] at hr
        by_cases h2 : s = "phx"
        · rw [show (s == "phx") = true from beq_iff_eq.mpr h2] at hr
          cases hr
          rfl
        · rw [show (s == "phx") = false from beq_eq_false_iff_ne.mpr h2] at hr
          cases hr

/-- Witness for C9: the canonical-shape, table-key, unknown-code and
idempotence cases at concrete inputs. -/
theorem C9_normalize_region_idempotent_witness :
    normalize_region "us-ashburn-1" = some "us-ashburn-1" ∧
    normalize_region "zzz" = none ∧
    normalize_region "us-phoenix-1" = some "us-phoenix-1" ∧
    normalize_region "ab-cd-٣" = some "ab-cd-٣" :=
  ⟨(C9_normalize_region_idempotent "us-ashburn-1").1 (by decide),
   (C9_normalize_region_idempotent "zzz").2.2.2.1 (by decide) (by decide) (by decide),
   (C9_normalize_region_idempotent "phx").2.2.2.2 "us-phoenix-1"
     ((C9_normalize_region_idempotent "phx").2.2.1),
   (C9_normalize_region_idempotent "ab-cd-٣").1 (by decide)⟩

/-! ### C7: plan-listing behaviour -/

theorem find?_first_true {α : Type} (q : α → Bool) (pre : List α) (p : α)
    (post : List α) (hpre : ∀ x ∈ pre, q x = false) (hp : q p = true) :
    (pre ++ p :: post).find? q = some p := by
  induction pre with
  | nil => simp [List.find?_cons_of_pos, hp]
  | cons x xs ih =>
      have hx : q x = false := hpre x (List.mem_cons_self x xs)
      rw [List.cons_append, List.find?_cons_of_neg _ (by simp [hx])]
      exact ih (fun z hz => hpre z (List.mem_cons_of_mem x hz))

/-- C7 (confirmed).  `list_active_dr_plans` first scans the unfiltered plan
list: if some plan is transitional, it returns the state of the first such
plan without the ACTIVE re-query; if no plan is transitional it re-queries
with the ACTIVE filter and returns that list; if either call raises it
returns the absent value. -/
theorem C7_list_active_behaviour (env : Env) (gid : String) (st : St) :
    (∀ plans pre p post, env.listAll gid = some plans →
       plans = pre ++ p :: post →
       (∀ q ∈ pre, transitional_states.contains q.lifecycle_state = false) →
       transitional_states.contains p.lifecycle_state = true →
       (list_active_dr_plans env gid st).2 =
         PlanListResult.transitional p.lifecycle_state) ∧
    (∀ plans act, env.listAll gid = some plans →
       (∀ q ∈ plans, transitional_states.contains q.lifecycle_state = false) →
       env.listActive gid = some act →
       (list_active_dr_plans env gid st).2 = PlanListResult.lst act) ∧
    (env.listAll gid = none →
       (list_active_dr_plans env gid st).2 = PlanListResult.failure) ∧
    (∀ plans, env.listAll gid = some plans →
       (∀ q ∈ plans, transitional_states.contains q.lifecycle_state = false) →
       env.listActive gid = none →
       (list_active_dr_plans env gid st).2 = PlanListResult.failure) := by
  refine ⟨?_, ?_, ?_, ?_⟩
  · rintro plans pre p post hall rfl hpre hp
    simp only [list_active_dr_plans, hall]
    rw [find?_first_true _ pre p post hpre hp]
  · intro plans act hall hnone hact
    simp only [list_active_dr_plans, hall, hact]
    rw [List.find?_eq_none.mpr (by intro x hx; simpa using hnone x hx)]
  · intro hall
    simp [list_active_dr_plans, hall]
  · intro plans hall hnone hact
    simp only [list_active_dr_plans, hall, hact]
    rw [List.find?_eq_none.mpr (by intro x hx; simpa using hnone x hx)]

/-- Witness for C7: the short-circuit case at a concrete transitional plan
list and the ACTIVE case at a concrete clean list. -/
theorem C7_list_active_behaviour_witness :
    (list_active_dr_plans envTransitional "g" {}).2 =
      PlanListResult.transitional "UPDATING" ∧
    (list_active_dr_plans envBadType "g" {}).2 =
      PlanListResult.lst [planGood, planBad, planAfter] :=
  ⟨(C7_list_active_behaviour envTransitional "g" {}).1
      [planGood, planUpdating] [planGood] planUpdating []
      (by decide) (by simp [envTransitional]) (by decide) (by decide),
   (C7_list_active_behaviour envBadType "g" {}).2.1
      [planGood, planBad, planAfter] [planGood, planBad, planAfter]
      (by decide) (by decide) (by decide)⟩

/-! ### Event-trace extension and invariance helpers -/

theorem send_notification_events_ext (env : Env) (name ocid t contents : String)
    (st : St) :
    ∃ d, (send_notification env name ocid t contents st).1.events =
      st.events ++ d := by
  unfold send_notification
  cases hsp : (pySplit '.' t.data).get? 3 with
  | none =>
      exact ⟨[Event.notifyCalled name ocid t], by simp [addEvent, logErr]⟩
  | some cs =>
      cases hnr : normalize_region (String.mk cs) with
      | none =>
          exact ⟨[Event.notifyCalled name ocid t],
            by simp [hnr, addEvent, logErr]⟩
      | some region =>
          cases hp : env.publishOk
          · refine ⟨[Event.notifyCalled name ocid t,
              Event.created st.nextId, Event.configuredClient region st.nextId], ?_⟩
            simp [hnr, hp, addEvent, logErr, prepare_region_file]
          · refine ⟨[Event.notifyCalled name ocid t,
              Event.created st.nextId, Event.configuredClient region st.nextId,
              Event.published t ("FSDR Precheck Failed for " ++ name ++ " - " ++ ocid)
                (name ++ ": " ++ ocid ++ "\n\n" ++ contents),
              Event.deleted st.nextId], ?_⟩
            simp [hnr, hp, addEvent, logErr, prepare_region_file, unlink]

theorem maybe_notify_events_ext (env : Env) (topic : Option String)
    (name ocid : String) (st : St) :
    ∃ d, (maybe_notify env topic name ocid st).1.events = st.events ++ d := by
  cases topic with
  | none => exact ⟨[], by simp [maybe_notify]⟩
  | some t =>
      by_cases ht : (t != "") = true
      · rw [show maybe_notify env (some t) name ocid st =
            send_notification env name ocid t (renderLog st.errLog) st from by
              simp [maybe_notify, ht]]
        exact send_notification_events_ext env name ocid t (renderLog st.errLog) st
      · exact ⟨[], by simp [maybe_notify, ht]⟩

theorem error_exit_events_ext (env : Env) (topic : Option String)
    (name ocid : String) (fid : Nat) (st : St) :
    ∃ d, (error_exit env topic name ocid fid st).st.events = st.events ++ d := by
  unfold error_exit unlink
  by_cases hf : fid ∈ st.files
  · rw [if_pos hf]
    simp only [if_true]
    obtain ⟨d, hd⟩ := maybe_notify_events_ext env topic name ocid
      { st with files := st.files.erase fid, events := st.events ++ [Event.deleted fid] }
    exact ⟨[Event.deleted fid] ++ d, by simp only [hd]; simp⟩
  · rw [if_neg hf]
    exact ⟨[], by simp⟩

theorem planLoop_events_ext (env : Env) (sid : String) (plans : List Plan) :
    ∀ st, ∃ d, (planLoop env sid plans st).1.events = st.events ++ d := by
  induction plans with
  | nil => intro st; exact ⟨[], by simp [planLoop]⟩
  | cons p rest ih =>
      intro st
      unfold planLoop
      by_cases hk : knownPlanTypes.contains p.type = true
      · rw [if_pos hk]
        simp only [get_drpg_details]
        cases hg : env.getDrpg sid with
        | none =>
            exact ⟨[Event.execCreated p.id, Event.fetchedDrpg sid],
              by simp [addEvent, logErr]⟩
        | some d =>
            by_cases hf : (env.execFinal p.id == "SUCCEEDED") = true
            · rw [if_pos hf]
              obtain ⟨d2, hd2⟩ := ih (addEvent (addEvent st (Event.execCreated p.id))
                (Event.fetchedDrpg sid))
              exact ⟨[Event.execCreated p.id, Event.fetchedDrpg sid] ++ d2,
                by rw [hd2]; simp [addEvent]⟩
            · rw [if_neg hf]
              obtain ⟨d2, hd2⟩ := ih (logErr (addEvent (addEvent st
                (Event.execCreated p.id)) (Event.fetchedDrpg sid))
                ("Precheck failed: " ++ p.display_name))
              exact ⟨[Event.execCreated p.id, Event.fetchedDrpg sid] ++ d2,
                by rw [hd2]; simp [addEvent, logErr]⟩
      · rw [if_neg hk]
        exact ⟨[], by simp⟩

theorem finalize_events_ext (env : Env) (topic : Option String)
    (sname sid : String) (fid : Nat) (st : St) :
    ∃ d, (finalize env topic sname sid fid st).st.events = st.events ++ d := by
  by_cases hc : st.errLog ≠ [] ∧ topicTruthy topic = true
  · obtain ⟨d, hd⟩ := maybe_notify_events_ext env topic sname sid st
    cases hn : (maybe_notify env topic sname sid st).2 with
    | sysExit1 =>
        refine ⟨d, ?_⟩
        simp only [finalize, if_pos hc, hn]
        exact hd
    | returned =>
        by_cases hf : fid ∈ (maybe_notify env topic sname sid st).1.files
        · refine ⟨d ++ [Event.deleted fid], ?_⟩
          simp only [finalize, if_pos hc, hn, unlink, if_pos hf]
          simp [hd]
        · refine ⟨d, ?_⟩
          simp only [finalize, if_pos hc, hn, if_neg hf]
          exact hd
  · by_cases hf : fid ∈ st.files
    · refine ⟨[Event.deleted fid], ?_⟩
      simp only [finalize, if_neg hc, unlink, if_pos hf]
    · refine ⟨[], ?_⟩
      simp only [finalize, if_neg hc, if_neg hf]
      simp

theorem with_plans_events_ext (env : Env) (topic : Option String)
    (sname sid : String) (fid : Nat) (st : St) (res : PlanListResult) :
    ∃ d, (with_plans env topic sname sid fid st res).st.events =
      st.events ++ d := by
  cases hl : pyLen res with
  | none => exact ⟨[], by simp [with_plans, hl]⟩
  | some n =>
      by_cases hn : (n == 0) = true
      · obtain ⟨d, hd⟩ := error_exit_events_ext env topic sname sid fid
          (logErr st ("No Active DR plans found in " ++ sname ++ "."))
        refine ⟨d, ?_⟩
        simp only [with_plans, hl, if_pos hn]
        simpa [logErr] using hd
      · cases res with
        | transitional s =>
            obtain ⟨d, hd⟩ := error_exit_events_ext env topic sname sid fid
              (logErr st ("First transitional state found: " ++ s))
            refine ⟨d, ?_⟩
            simp only [with_plans, hl, if_neg hn]
            simpa [logErr] using hd
        | failure => exact absurd hl (by simp [pyLen])
        | lst plans =>
            obtain ⟨d1, hd1⟩ := planLoop_events_ext env sid plans st
            cases ho : (planLoop env sid plans st).2 with
            | some out =>
                refine ⟨d1, ?_⟩
                simp only [with_plans, hl, if_neg hn, ho]
                exact hd1
            | none =>
                obtain ⟨d2, hd2⟩ := finalize_events_ext env topic sname sid fid
                  (planLoop env sid plans st).1
                refine ⟨d1 ++ d2, ?_⟩
                simp only [with_plans, hl, if_neg hn, ho]
                rw [hd2, hd1]
                simp

/-! ### Notifier success lemmas and stage invariants -/

theorem topic_split_of_valid (t : String)
    (h : TOPIC_OCID_PATTERN_match t = true) :
    ∃ cs, (pySplit '.' t.data).get? 3 = some cs := by
  have hc : ocidCore "ocid1.onstopic.".data t.data = true :=
    (pyMatchAnchored_ocid _ t).1 h
  obtain ⟨a, b, c, hane, hbne, hcne, hadot, hbdot, hcdot, heq⟩ :=
    (ocidCore_iff _ _).1 hc
  refine ⟨b, ?_⟩
  have hpre : ("ocid1.onstopic.".data : List Char) =
      ("ocid1.".data ++ "onstopic".data) ++ ['.'] := by decide
  have heq2 : t.data = "ocid1.".data ++
      ("onstopic".data ++ '.' :: (a ++ '.' :: (b ++ '.' :: c))) := by
    rw [heq, hpre]
    simp
  rw [heq2,
    pySplit_ocid "onstopic".data (by decide) a b c hadot hbdot hcdot]
  rfl

theorem send_notification_good (env : Env) (name ocid t contents : String)
    (st : St) (hpub : env.publishOk = true) (cs : List Char)
    (hsp : (pySplit '.' t.data).get? 3 = some cs) (region : String)
    (hnr : normalize_region (String.mk cs) = some region) :
    (send_notification env name ocid t contents st).2 = SnOut.returned ∧
    (send_notification env name ocid t contents st).1.files = st.files ∧
    Event.published t ("FSDR Precheck Failed for " ++ name ++ " - " ++ ocid)
        (name ++ ": " ++ ocid ++ "\n\n" ++ contents) ∈
      (send_notification env name ocid t contents st).1.events := by
  have hsp2 : (pySplit '.' t.data)[3]? = some cs := by
    rw [← List.get?_eq_getElem?]
    exact hsp
  refine ⟨?_, ?_, ?_⟩ <;>
    simp [send_notification, hsp, hsp2, hnr, hpub, prepare_region_file,
      addEvent, unlink]

theorem maybe_notify_good (env : Env) (topic : Option String)
    (name ocid : String) (st : St) (hpub : env.publishOk = true)
    (htr : topicRegionResolvable topic)
    (hval : topicTruthy topic = true →
      is_valid_ocid (topic.getD "") TOPIC_OCID_PATTERN_match = true) :
    (maybe_notify env topic name ocid st).2 = SnOut.returned ∧
    (maybe_notify env topic name ocid st).1.files = st.files ∧
    (topicTruthy topic = true →
      ∃ t2 ti b, Event.published t2 ti b ∈
        (maybe_notify env topic name ocid st).1.events) := by
  cases topic with
  | none => exact ⟨rfl, rfl, by simp [topicTruthy]⟩
  | some t =>
      by_cases ht : (t != "") = true
      · have htt : topicTruthy (some t) = true := ht
        have hvalid : TOPIC_OCID_PATTERN_match t = true := by
          simpa [is_valid_ocid] using hval htt
        obtain ⟨cs, hsp⟩ := topic_split_of_valid t hvalid
        have hnr : normalize_region (String.mk cs) ≠ none := htr t rfl cs hsp
        obtain ⟨region, hreg⟩ : ∃ r, normalize_region (String.mk cs) = some r := by
          cases hx : normalize_region (String.mk cs) with
          | none => exact absurd hx hnr
          | some r => exact ⟨r, rfl⟩
        have hred : maybe_notify env (some t) name ocid st =
            send_notification env name ocid t (renderLog st.errLog) st := by
          simp [maybe_notify, ht]
        rw [hred]
        obtain ⟨h1, h2, h3⟩ := send_notification_good env name ocid t
          (renderLog st.errLog) st hpub cs hsp region hreg
        exact ⟨h1, h2, fun _ => ⟨t, _, _, h3⟩⟩
      · have hred : maybe_notify env (some t) name ocid st =
            (st, SnOut.returned) := by
          simp [maybe_notify, ht]
        rw [hred]
        exact ⟨rfl, rfl, fun h => absurd h (by simpa [topicTruthy] using ht)⟩

theorem error_exit_good (env : Env) (topic : Option String)
    (name ocid : String) (fid : Nat) (st : St) (hpub : env.publishOk = true)
    (htr : topicRegionResolvable topic)
    (hval : topicTruthy topic = true →
      is_valid_ocid (topic.getD "") TOPIC_OCID_PATTERN_match = true)
    (hfiles : st.files = [fid]) :
    (error_exit env topic name ocid fid st).outcome = Outcome.exit1 ∧
    (error_exit env topic name ocid fid st).st.files = [] ∧
    (topicTruthy topic = true →
      ∃ t2 ti b, Event.published t2 ti b ∈
        (error_exit env topic name ocid fid st).st.events) := by
  have hf : fid ∈ st.files := by simp [hfiles]
  have hred : error_exit env topic name ocid fid st =
      { st := (maybe_notify env topic name ocid
          { st with files := st.files.erase fid,
                    events := st.events ++ [Event.deleted fid] }).1,
        outcome := Outcome.exit1 } := by
    simp [error_exit, unlink, hf]
  rw [hred]
  obtain ⟨_, h2, h3⟩ := maybe_notify_good env topic name ocid
    { st with files := st.files.erase fid,
              events := st.events ++ [Event.deleted fid] } hpub htr hval
  refine ⟨rfl, ?_, h3⟩
  rw [h2]
  simp [hfiles]

theorem list_active_dr_plans_files (env : Env) (gid : String) (st : St) :
    (list_active_dr_plans env gid st).1.files = st.files := by
  cases hall : env.listAll gid with
  | none => simp only [list_active_dr_plans, hall, addEvent, logErr]
  | some plans =>
      cases hfind : plans.find?
          (fun p => transitional_states.contains p.lifecycle_state) with
      | some p => simp only [list_active_dr_plans, hall, hfind, addEvent, logErr]
      | none =>
          cases hact : env.listActive gid with
          | none =>
              simp only [list_active_dr_plans, hall, hfind, hact, addEvent,
                logErr]
          | some act =>
              simp only [list_active_dr_plans, hall, hfind, hact, addEvent]

theorem planLoop_files (env : Env) (sid : String) (plans : List Plan) :
    ∀ st, (planLoop env sid plans st).1.files = st.files := by
  induction plans with
  | nil => intro st; rfl
  | cons p rest ih =>
      intro st
      by_cases hk : knownPlanTypes.contains p.type = true
      · cases hg : env.getDrpg sid with
        | none =>
            simp only [planLoop, if_pos hk, get_drpg_details, hg, addEvent,
              logErr]
        | some d =>
            by_cases hf : (env.execFinal p.id == "SUCCEEDED") = true
            · simp only [planLoop, if_pos hk, get_drpg_details, hg, if_pos hf,
                addEvent]
              exact ih _
            · simp only [planLoop, if_pos hk, get_drpg_details, hg, if_neg hf,
                addEvent, logErr]
              exact ih _
      · simp only [planLoop, if_neg hk]

theorem planLoop_not_exit1 (env : Env) (sid : String) (plans : List Plan) :
    ∀ st, (planLoop env sid plans st).2 ≠ some Outcome.exit1 := by
  induction plans with
  | nil => intro st; simp [planLoop]
  | cons p rest ih =>
      intro st
      by_cases hk : knownPlanTypes.contains p.type = true
      · cases hg : env.getDrpg sid with
        | none =>
            simp only [planLoop, if_pos hk, get_drpg_details, hg, addEvent,
              logErr]
            simp
        | some d =>
            by_cases hf : (env.execFinal p.id == "SUCCEEDED") = true
            · simp only [planLoop, if_pos hk, get_drpg_details, hg, if_pos hf,
                addEvent]
              exact ih _
            · simp only [planLoop, if_pos hk, get_drpg_details, hg, if_neg hf,
                addEvent, logErr]
              exact ih _
      · simp only [planLoop, if_neg hk]
        simp

theorem finalize_not_exit1 (env : Env) (topic : Option String)
    (sname sid : String) (fid : Nat) (st : St) (hpub : env.publishOk = true)
    (htr : topicRegionResolvable topic)
    (hval : topicTruthy topic = true →
      is_valid_ocid (topic.getD "") TOPIC_OCID_PATTERN_match = true) :
    (finalize env topic sname sid fid st).outcome = Outcome.normal := by
  by_cases hc : st.errLog ≠ [] ∧ topicTruthy topic = true
  · have h1 := (maybe_notify_good env topic sname sid st hpub htr hval).1
    simp only [finalize, if_pos hc, h1]
  · simp only [finalize, if_neg hc]

theorem with_plans_exit1 (env : Env) (topic : Option String)
    (sname sid : String) (fid : Nat) (st : St) (res : PlanListResult)
    (hpub : env.publishOk = true) (htr : topicRegionResolvable topic)
    (hval : topicTruthy topic = true →
      is_valid_ocid (topic.getD "") TOPIC_OCID_PATTERN_match = true)
    (hfiles : st.files = [fid]) :
    (with_plans env topic sname sid fid st res).outcome = Outcome.exit1 →
    (with_plans env topic sname sid fid st res).st.files = [] ∧
    (topicTruthy topic = true →
      ∃ t2 ti b, Event.published t2 ti b ∈
        (with_plans env topic sname sid fid st res).st.events) := by
  cases hl : pyLen res with
  | none =>
      simp only [with_plans, hl]
      intro h
      exact absurd h (by decide)
  | some n =>
      by_cases hn : (n == 0) = true
      · have he := error_exit_good env topic sname sid fid
          (logErr st ("No Active DR plans found in " ++ sname ++ "."))
          hpub htr hval (by simpa [logErr] using hfiles)
        simp only [with_plans, hl, if_pos hn]
        exact fun _ => ⟨he.2.1, he.2.2⟩
      · cases res with
        | failure => exact absurd hl (by simp [pyLen])
        | transitional s =>
            have he := error_exit_good env topic sname sid fid
              (logErr st ("First transitional state found: " ++ s))
              hpub htr hval (by simpa [logErr] using hfiles)
            simp only [with_plans, hl, if_neg hn]
            exact fun _ => ⟨he.2.1, he.2.2⟩
        | lst plans =>
            cases ho : (planLoop env sid plans st).2 with
            | some out =>
                simp only [with_plans, hl, if_neg hn, ho]
                intro h
                exact absurd (h ▸ ho) (planLoop_not_exit1 env sid plans st)
            | none =>
                simp only [with_plans, hl, if_neg hn, ho]
                intro h
                rw [finalize_not_exit1 env topic sname sid fid
                  (planLoop env sid plans st).1 hpub htr hval] at h
                exact absurd h (by decide)

theorem with_standby_exit1 (env : Env) (topic : Option String) (fid : Nat)
    (d : Drpg) (st : St) (hpub : env.publishOk = true)
    (htr : topicRegionResolvable topic)
    (hval : topicTruthy topic = true →
      is_valid_ocid (topic.getD "") TOPIC_OCID_PATTERN_match = true)
    (hfiles : st.files = [fid]) :
    (with_standby env topic fid d st).outcome = Outcome.exit1 →
    (with_standby env topic fid d st).st.files = [] ∧
    (topicTruthy topic = true →
      ∃ t2 ti b, Event.published t2 ti b ∈
        (with_standby env topic fid d st).st.events) := by
  by_cases hs : (d.lifecycle_state != "ACTIVE") = true
  · have he := error_exit_good env topic d.display_name d.id fid
      (logErr st "Standby DRPG is not active.") hpub htr hval
      (by simpa [logErr] using hfiles)
    simp only [with_standby, if_pos hs]
    exact fun _ => ⟨he.2.1, he.2.2⟩
  · simp only [with_standby, if_neg hs]
    exact with_plans_exit1 env topic d.display_name d.id fid
      (list_active_dr_plans env d.id st).1 (list_active_dr_plans env d.id st).2
      hpub htr hval
      (by rw [list_active_dr_plans_files]; exact hfiles)

theorem with_drpg_exit1 (env : Env) (topic : Option String) (docid : String)
    (fid : Nat) (d : Drpg) (st : St) (hpub : env.publishOk = true)
    (htr : topicRegionResolvable topic)
    (hval : topicTruthy topic = true →
      is_valid_ocid (topic.getD "") TOPIC_OCID_PATTERN_match = true)
    (hfiles : st.files = [fid]) :
    (with_drpg env topic docid fid d st).outcome = Outcome.exit1 →
    (with_drpg env topic docid fid d st).st.files = [] ∧
    (topicTruthy topic = true →
      ∃ t2 ti b, Event.published t2 ti b ∈
        (with_drpg env topic docid fid d st).st.events) := by
  by_cases hu : (d.role == "UNCONFIGURED") = true
  · have he := error_exit_good env topic d.display_name docid fid
      (logErr st "DRPG is unconfigured.") hpub htr hval
      (by simpa [logErr] using hfiles)
    simp only [with_drpg, if_pos hu]
    exact fun _ => ⟨he.2.1, he.2.2⟩
  · by_cases hpr : (d.role == "PRIMARY") = true
    · have hf : fid ∈ st.files := by simp [hfiles]
      have hfe : st.files.erase fid = [] := by simp [hfiles]
      cases hnr : normalize_region d.peer_region with
      | none =>
          simp only [with_drpg, if_neg hu, if_pos hpr, unlink, if_pos hf,
            hnr, logErr, hfe]
          intro h
          simp at h
      | some r2 =>
          cases hg : env.getDrpg d.peer_id with
          | none =>
              simp only [with_drpg, if_neg hu, if_pos hpr, unlink, if_pos hf,
                hnr, hfe, prepare_region_file, addEvent, get_drpg_details,
                hg, logErr]
              exact fun _ =>
                ⟨(error_exit_good env topic "" d.peer_id _ _ hpub htr hval
                    (by simp)).2.1,
                 (error_exit_good env topic "" d.peer_id _ _ hpub htr hval
                    (by simp)).2.2⟩
          | some d2 =>
              simp only [with_drpg, if_neg hu, if_pos hpr, unlink, if_pos hf,
                hnr, hfe, prepare_region_file, addEvent, get_drpg_details,
                hg, logErr]
              exact with_standby_exit1 env topic _ d2 _ hpub htr hval
                (by simp)
    · simp only [with_drpg, if_neg hu, if_neg hpr]
      exact with_standby_exit1 env topic fid d st hpub htr hval hfiles

/-! ### Run-pipeline reduction lemmas -/

theorem list_active_dr_plans_events (env : Env) (gid : String) (st : St) :
    (list_active_dr_plans env gid st).1.events =
      st.events ++ [Event.listedPlans gid] := by
  cases hall : env.listAll gid with
  | none => simp only [list_active_dr_plans, hall, addEvent, logErr]
  | some plans =>
      cases hfind : plans.find?
          (fun p => transitional_states.contains p.lifecycle_state) with
      | some p =>
          simp only [list_active_dr_plans, hall, hfind, addEvent, logErr]
      | none =>
          cases hact : env.listActive gid with
          | none =>
              simp only [list_active_dr_plans, hall, hfind, hact, addEvent,
                logErr]
          | some act =>
              simp only [list_active_dr_plans, hall, hfind, hact, addEvent]

theorem run_to_with_drpg (env : Env) (docid : String) (topic : Option String)
    (cs1 : List Char) (r1 : String) (d : Drpg)
    (hv : is_valid_ocid docid DRPG_OCID_PATTERN_match = true)
    (hc : (topicTruthy topic &&
      !is_valid_ocid (topic.getD "") TOPIC_OCID_PATTERN_match) = false)
    (hsp : (pySplit '.' docid.data).get? 3 = some cs1)
    (hr1 : normalize_region (String.mk cs1) = some r1)
    (hg : env.getDrpg docid = some d) :
    run_prechecks env docid topic =
      with_drpg env topic docid 0 d
        { files := [0], nextId := 1,
          events := [Event.created 0, Event.configuredClient r1 0,
                     Event.fetchedDrpg docid],
          errLog := [] } := by
  simp only [run_prechecks, hv, Bool.not_true, Bool.false_eq_true, if_false,
    hc, hsp, hr1, prepare_region_file, addEvent, get_drpg_details, hg]
  rfl

theorem with_drpg_to_plans (env : Env) (topic : Option String)
    (docid : String) (fid : Nat) (d : Drpg) (st : St)
    (hrole : d.role = "STANDBY") (hact : d.lifecycle_state = "ACTIVE") :
    with_drpg env topic docid fid d st =
      with_plans env topic d.display_name d.id fid
        (list_active_dr_plans env d.id st).1
        (list_active_dr_plans env d.id st).2 := by
  have e1 : (d.role == "UNCONFIGURED") = false := by rw [hrole]; rfl
  have e2 : (d.role == "PRIMARY") = false := by rw [hrole]; rfl
  have e3 : (d.lifecycle_state != "ACTIVE") = false := by rw [hact]; rfl
  simp only [with_drpg, e1, Bool.false_eq_true, if_false, e2, with_standby,
    e3]

theorem with_drpg_primary_to_standby (env : Env) (topic : Option String)
    (docid : String) (fid : Nat) (d : Drpg) (st : St)
    (hrole : d.role = "PRIMARY") (hf : fid ∈ st.files) (r2 : String)
    (hnr : normalize_region d.peer_region = some r2) (d2 : Drpg)
    (hg2 : env.getDrpg d.peer_id = some d2) :
    with_drpg env topic docid fid d st =
      with_standby env topic st.nextId d2
        { files := st.nextId :: st.files.erase fid, nextId := st.nextId + 1,
          events := st.events ++ [Event.deleted fid,
            Event.created st.nextId, Event.configuredClient r2 st.nextId,
            Event.fetchedDrpg d.peer_id],
          errLog := st.errLog } := by
  have e1 : (d.role == "UNCONFIGURED") = false := by rw [hrole]; rfl
  have e2 : (d.role == "PRIMARY") = true := by rw [hrole]; rfl
  simp only [with_drpg, e1, Bool.false_eq_true, if_false, e2, if_true,
    unlink, if_pos hf, hnr, prepare_region_file, addEvent, get_drpg_details,
    hg2]
  simp

/-! ### C1 and C5: the plan-listing failure path -/

/-- C1 (code-bug evidence).  When `list_dr_plans` raises, the orchestrator
applies `len` to the `None` returned by `list_active_dr_plans` and crashes
with an unhandled TypeError before any cleanup: region file 0 was created and
is still present at process exit (the trace holds `created 0` and no
`deleted 0`), so the ephemeral region file is leaked on this branch. -/
theorem C1_region_file_leaked :
    (run_prechecks envListFail "ocid1.drprotectiongroup.oc1.iad.g1" none).outcome =
      Outcome.crash "TypeError" ∧
    (run_prechecks envListFail "ocid1.drprotectiongroup.oc1.iad.g1" none).st.files =
      [0] ∧
    (run_prechecks envListFail "ocid1.drprotectiongroup.oc1.iad.g1" none).st.events =
      [Event.created 0, Event.configuredClient "us-ashburn-1" 0,
       Event.fetchedDrpg "ocid1.drprotectiongroup.oc1.iad.g1",
       Event.listedPlans "ocid1.drprotectiongroup.oc1.iad.g1"] :=
  ⟨rfl, rfl, rfl⟩

/-- C5 (confirmed).  If plan enumeration raises, `list_active_dr_plans`
returns the absent value and the orchestrator applies the length check to it
before the type checks, so the run ends in an unhandled TypeError rather than
a logged error-exit: the region file (file 0) is never deleted and no
notification is attempted or published. -/
theorem C5_len_applied_to_none (env : Env) (docid : String)
    (topic : Option String) (g : Drpg) (cs1 : List Char) (r1 : String)
    (hv : is_valid_ocid docid DRPG_OCID_PATTERN_match = true)
    (hc : (topicTruthy topic &&
      !is_valid_ocid (topic.getD "") TOPIC_OCID_PATTERN_match) = false)
    (hsp : (pySplit '.' docid.data).get? 3 = some cs1)
    (hr1 : normalize_region (String.mk cs1) = some r1)
    (hg : env.getDrpg docid = some g)
    (hrole : g.role = "STANDBY")
    (hact : g.lifecycle_state = "ACTIVE")
    (hla : env.listAll g.id = none) :
    (run_prechecks env docid topic).outcome = Outcome.crash "TypeError" ∧
    (run_prechecks env docid topic).st.files = [0] ∧
    (∀ t2 ti b, Event.published t2 ti b ∉
      (run_prechecks env docid topic).st.events) ∧
    (∀ n o t2, Event.notifyCalled n o t2 ∉
      (run_prechecks env docid topic).st.events) := by
  have h1 := run_to_with_drpg env docid topic cs1 r1 g hv hc hsp hr1 hg
  have h2 := with_drpg_to_plans env topic docid 0 g
    { files := [0], nextId := 1,
      events := [Event.created 0, Event.configuredClient r1 0,
                 Event.fetchedDrpg docid],
      errLog := [] } hrole hact
  have h3 : list_active_dr_plans env g.id
      { files := [0], nextId := 1,
        events := [Event.created 0, Event.configuredClient r1 0,
                   Event.fetchedDrpg docid],
        errLog := [] } =
      ({ files := [0], nextId := 1,
         events := [Event.created 0, Event.configuredClient r1 0,
                    Event.fetchedDrpg docid, Event.listedPlans g.id],
         errLog := ["Failed to list DR plans"] }, PlanListResult.failure) := by
    simp only [list_active_dr_plans, hla, addEvent, logErr]
    simp
  rw [h1, h2, h3]
  refine ⟨rfl, rfl, ?_, ?_⟩
  · intro t2 ti b
    show Event.published t2 ti b ∉
      [Event.created 0, Event.configuredClient r1 0, Event.fetchedDrpg docid,
       Event.listedPlans g.id]
    simp
  · intro n o t2
    show Event.notifyCalled n o t2 ∉
      [Event.created 0, Event.configuredClient r1 0, Event.fetchedDrpg docid,
       Event.listedPlans g.id]
    simp

/-- Witness for C5 at a concrete environment whose listing call raises. -/
theorem C5_len_applied_to_none_witness :
    (run_prechecks envListFail "ocid1.drprotectiongroup.oc1.iad.g1"
      none).outcome = Outcome.crash "TypeError" ∧
    (run_prechecks envListFail "ocid1.drprotectiongroup.oc1.iad.g1"
      none).st.files = [0] ∧
    (∀ t2 ti b, Event.published t2 ti b ∉ (run_prechecks envListFail
      "ocid1.drprotectiongroup.oc1.iad.g1" none).st.events) ∧
    (∀ n o t2, Event.notifyCalled n o t2 ∉ (run_prechecks envListFail
      "ocid1.drprotectiongroup.oc1.iad.g1" none).st.events) :=
  C5_len_applied_to_none envListFail "ocid1.drprotectiongroup.oc1.iad.g1"
    none standbyDrpg ['i', 'a', 'd'] "us-ashburn-1"
    rfl rfl rfl rfl rfl rfl rfl rfl

/-! ### C6: unknown plan type aborts the loop -/

theorem planLoop_unknown_type (env : Env) (sid : String) (bad : Plan)
    (rest : List Plan) (hbad : knownPlanTypes.contains bad.type = false)
    (gx : Drpg) (hget : env.getDrpg sid = some gx) :
    ∀ good : List Plan,
      (∀ q ∈ good, knownPlanTypes.contains q.type = true) →
      ∀ st, (planLoop env sid (good ++ bad :: rest) st).2 =
          some (Outcome.crash "ValueError") ∧
        ∀ pid, Event.execCreated pid ∈
            (planLoop env sid (good ++ bad :: rest) st).1.events ↔
          (Event.execCreated pid ∈ st.events ∨ pid ∈ good.map Plan.id) := by
  intro good
  induction good with
  | nil =>
      intro _ st
      have hred : planLoop env sid ([] ++ bad :: rest) st =
          (st, some (Outcome.crash "ValueError")) := by
        simp only [List.nil_append, planLoop, hbad, Bool.false_eq_true,
          if_false]
      rw [hred]
      exact ⟨rfl, by simp⟩
  | cons p good' ih =>
      intro hgood st
      have hk : knownPlanTypes.contains p.type = true :=
        hgood p (List.mem_cons_self p good')
      have ih' := ih (fun q hq => hgood q (List.mem_cons_of_mem p hq))
      by_cases hf : (env.execFinal p.id == "SUCCEEDED") = true
      · have hred : planLoop env sid ((p :: good') ++ bad :: rest) st =
            planLoop env sid (good' ++ bad :: rest)
              (addEvent (addEvent st (Event.execCreated p.id))
                (Event.fetchedDrpg sid)) := by
          simp only [List.cons_append, planLoop, if_pos hk, get_drpg_details,
            hget, if_pos hf, addEvent, List.append_eq]
        rw [hred]
        refine ⟨(ih' _).1, ?_⟩
        intro pid
        rw [(ih' _).2 pid]
        simp [addEvent, or_assoc]
      · have hred : planLoop env sid ((p :: good') ++ bad :: rest) st =
            planLoop env sid (good' ++ bad :: rest)
              (logErr (addEvent (addEvent st (Event.execCreated p.id))
                (Event.fetchedDrpg sid))
                ("Precheck failed: " ++ p.display_name)) := by
          simp only [List.cons_append, planLoop, if_pos hk, get_drpg_details,
            hget, if_neg hf, addEvent, logErr, List.append_eq]
        rw [hred]
        refine ⟨(ih' _).1, ?_⟩
        intro pid
        rw [(ih' _).2 pid]
        simp [addEvent, logErr, or_assoc]

/-- C6 (confirmed).  If the active-plan list is some known-typed plans, then
a plan whose type string is outside the `DrPlanType` enumeration, then any
further plans, the run terminates at the unknown-typed plan with an
unhandled ValueError (the `DrPlanType(plan.type)` constructor call raises
before the dead `else` branch is reached), and no execution is created for
any of the remaining plans. -/
theorem C6_unknown_type_terminates (env : Env) (docid : String)
    (topic : Option String) (g : Drpg) (cs1 : List Char) (r1 : String)
    (allp good rest : List Plan) (bad : Plan) (gx : Drpg)
    (hv : is_valid_ocid docid DRPG_OCID_PATTERN_match = true)
    (hc : (topicTruthy topic &&
      !is_valid_ocid (topic.getD "") TOPIC_OCID_PATTERN_match) = false)
    (hsp : (pySplit '.' docid.data).get? 3 = some cs1)
    (hr1 : normalize_region (String.mk cs1) = some r1)
    (hg : env.getDrpg docid = some g)
    (hrole : g.role = "STANDBY")
    (hact : g.lifecycle_state = "ACTIVE")
    (hla : env.listAll g.id = some allp)
    (hnt : allp.find?
      (fun p => transitional_states.contains p.lifecycle_state) = none)
    (hla2 : env.listActive g.id = some (good ++ bad :: rest))
    (hgood : ∀ q ∈ good, knownPlanTypes.contains q.type = true)
    (hbad : knownPlanTypes.contains bad.type = false)
    (hget : env.getDrpg g.id = some gx)
    (hids : ∀ q ∈ rest, q.id ∉ good.map Plan.id) :
    (run_prechecks env docid topic).outcome = Outcome.crash "ValueError" ∧
    ∀ q ∈ rest, Event.execCreated q.id ∉
      (run_prechecks env docid topic).st.events := by
  have h1 := run_to_with_drpg env docid topic cs1 r1 g hv hc hsp hr1 hg
  have h2 := with_drpg_to_plans env topic docid 0 g
    { files := [0], nextId := 1,
      events := [Event.created 0, Event.configuredClient r1 0,
                 Event.fetchedDrpg docid],
      errLog := [] } hrole hact
  have h3 : list_active_dr_plans env g.id
      { files := [0], nextId := 1,
        events := [Event.created 0, Event.configuredClient r1 0,
                   Event.fetchedDrpg docid],
        errLog := [] } =
      ({ files := [0], nextId := 1,
         events := [Event.created 0, Event.configuredClient r1 0,
                    Event.fetchedDrpg docid, Event.listedPlans g.id],
         errLog := [] }, PlanListResult.lst (good ++ bad :: rest)) := by
    simp only [list_active_dr_plans, hla, hnt, hla2, addEvent]
    simp
  have hloop := planLoop_unknown_type env g.id bad rest hbad gx hget good hgood
    { files := [0], nextId := 1,
      events := [Event.created 0, Event.configuredClient r1 0,
                 Event.fetchedDrpg docid, Event.listedPlans g.id],
      errLog := [] }
  have h4 : with_plans env topic g.display_name g.id 0
      { files := [0], nextId := 1,
        events := [Event.created 0, Event.configuredClient r1 0,
                   Event.fetchedDrpg docid, Event.listedPlans g.id],
        errLog := [] } (PlanListResult.lst (good ++ bad :: rest)) =
      { st := (planLoop env g.id (good ++ bad :: rest)
          { files := [0], nextId := 1,
            events := [Event.created 0, Event.configuredClient r1 0,
                       Event.fetchedDrpg docid, Event.listedPlans g.id],
            errLog := [] }).1,
        outcome := Outcome.crash "ValueError" } := by
    have hlen : ((good ++ bad :: rest).length == 0) = false := by simp
    simp only [with_plans, pyLen, hlen, Bool.false_eq_true, if_false,
      hloop.1]
  rw [h1, h2, h3]
  constructor
  · show (with_plans env topic g.display_name g.id 0 _
      (PlanListResult.lst (good ++ bad :: rest))).outcome = _
    rw [h4]
  · intro q hq
    show Event.execCreated q.id ∉ (with_plans env topic g.display_name g.id 0 _
      (PlanListResult.lst (good ++ bad :: rest))).st.events
    rw [h4]
    intro hmem
    rcases (hloop.2 q.id).mp hmem with h | h
    · simp at h
    · exact hids q hq h

/-- Witness for C6: with plans of types SWITCHOVER, then an unknown type,
then FAILOVER, the run crashes with ValueError, creates an execution for the
first plan only, and never creates one for the plan after the unknown one. -/
theorem C6_unknown_type_terminates_witness :
    (run_prechecks envBadType "ocid1.drprotectiongroup.oc1.iad.g1"
      none).outcome = Outcome.crash "ValueError" ∧
    ∀ q ∈ [planAfter], Event.execCreated q.id ∉ (run_prechecks envBadType
      "ocid1.drprotectiongroup.oc1.iad.g1" none).st.events :=
  C6_unknown_type_terminates envBadType "ocid1.drprotectiongroup.oc1.iad.g1"
    none standbyDrpg ['i', 'a', 'd'] "us-ashburn-1"
    [planGood, planBad, planAfter] [planGood] [planAfter] planBad standbyDrpg
    rfl rfl rfl rfl rfl rfl rfl rfl (by decide) rfl (by decide) (by decide)
    rfl (by decide)

/-! ### C8: the primary-to-peer switch -/

theorem with_standby_events (env : Env) (topic : Option String) (fid : Nat)
    (d2 : Drpg) (st : St) (hact2 : d2.lifecycle_state = "ACTIVE") :
    ∃ rest, (with_standby env topic fid d2 st).st.events =
      st.events ++ (Event.listedPlans d2.id :: rest) := by
  have e3 : (d2.lifecycle_state != "ACTIVE") = false := by rw [hact2]; rfl
  simp only [with_standby, e3, Bool.false_eq_true, if_false]
  obtain ⟨dd, hdd⟩ := with_plans_events_ext env topic d2.display_name d2.id
    fid (list_active_dr_plans env d2.id st).1
    (list_active_dr_plans env d2.id st).2
  refine ⟨dd, ?_⟩
  rw [hdd, list_active_dr_plans_events]
  simp

theorem with_drpg_primary_from_start (env : Env) (topic : Option String)
    (docid : String) (d : Drpg) (r2 : String) (d2 : Drpg) (ev : List Event)
    (hrole : d.role = "PRIMARY")
    (hnr : normalize_region d.peer_region = some r2)
    (hg2 : env.getDrpg d.peer_id = some d2) :
    with_drpg env topic docid 0 d
      { files := [0], nextId := 1, events := ev, errLog := [] } =
      with_standby env topic 1 d2
        { files := [1], nextId := 2,
          events := ev ++ [Event.deleted 0, Event.created 1,
            Event.configuredClient r2 1, Event.fetchedDrpg d.peer_id],
          errLog := [] } := by
  rw [with_drpg_primary_to_standby env topic docid 0 d
    { files := [0], nextId := 1, events := ev, errLog := [] }
    hrole (by simp) r2 hnr d2 hg2]
  rfl

/-- C8 (confirmed).  When the fetched protection group has role PRIMARY, a
resolvable peer region and a fetchable, ACTIVE peer: the orchestrator deletes
the original region file, writes a new one, configures a client for the peer
region and re-fetches the group under the peer OCID — all before the single
plan enumeration, which runs against the peer snapshot's id (the standby
view used by all subsequent steps). -/
theorem C8_primary_switches_to_peer (env : Env) (docid : String)
    (topic : Option String) (d d2 : Drpg) (cs1 : List Char) (r1 r2 : String)
    (hv : is_valid_ocid docid DRPG_OCID_PATTERN_match = true)
    (hc : (topicTruthy topic &&
      !is_valid_ocid (topic.getD "") TOPIC_OCID_PATTERN_match) = false)
    (hsp : (pySplit '.' docid.data).get? 3 = some cs1)
    (hr1 : normalize_region (String.mk cs1) = some r1)
    (hg : env.getDrpg docid = some d)
    (hrole : d.role = "PRIMARY")
    (hnr : normalize_region d.peer_region = some r2)
    (hg2 : env.getDrpg d.peer_id = some d2)
    (hact2 : d2.lifecycle_state = "ACTIVE") :
    ∃ rest, (run_prechecks env docid topic).st.events =
      [Event.created 0, Event.configuredClient r1 0, Event.fetchedDrpg docid,
       Event.deleted 0, Event.created 1, Event.configuredClient r2 1,
       Event.fetchedDrpg d.peer_id, Event.listedPlans d2.id] ++ rest := by
  have h1 := run_to_with_drpg env docid topic cs1 r1 d hv hc hsp hr1 hg
  have h2 := with_drpg_primary_from_start env topic docid d r2 d2
    [Event.created 0, Event.configuredClient r1 0, Event.fetchedDrpg docid]
    hrole hnr hg2
  obtain ⟨rest, hrest⟩ := with_standby_events env topic 1 d2
    { files := [1], nextId := 2,
      events := [Event.created 0, Event.configuredClient r1 0,
        Event.fetchedDrpg docid] ++ [Event.deleted 0, Event.created 1,
        Event.configuredClient r2 1, Event.fetchedDrpg d.peer_id],
      errLog := [] } hact2
  refine ⟨rest, ?_⟩
  rw [h1, h2, hrest]
  simp

/-- Witness for C8: the concrete primary protection group switches to its
phoenix peer and enumerates the peer's plans. -/
theorem C8_primary_switches_to_peer_witness :
    ∃ rest, (run_prechecks envPrimary "ocid1.drprotectiongroup.oc1.iad.p1"
        none).st.events =
      [Event.created 0, Event.configuredClient "us-ashburn-1" 0,
       Event.fetchedDrpg "ocid1.drprotectiongroup.oc1.iad.p1",
       Event.deleted 0, Event.created 1,
       Event.configuredClient "us-phoenix-1" 1,
       Event.fetchedDrpg "ocid1.drprotectiongroup.oc1.phx.s1",
       Event.listedPlans "ocid1.drprotectiongroup.oc1.phx.s1"] ++ rest :=
  C8_primary_switches_to_peer envPrimary "ocid1.drprotectiongroup.oc1.iad.p1"
    none primaryDrpg peerDrpg ['i', 'a', 'd'] "us-ashburn-1" "us-phoenix-1"
    rfl rfl rfl rfl rfl rfl rfl rfl rfl

/-! ### C2: what the error-exit edges actually do -/

/-- C2 counterexample.  On the identifier-validation error-exit edge with a
topic supplied, the process exits with status 1 but publishes nothing: the
event trace is empty, so no notification was attempted, contradicting the
claim that every error-exit edge notifies when a topic identifier was
supplied. -/
theorem C2_counterexample :
    (run_prechecks envPub "bad-ocid" (some "ocid1.onstopic.oc1.iad.t")).outcome =
      Outcome.exit1 ∧
    (run_prechecks envPub "bad-ocid" (some "ocid1.onstopic.oc1.iad.t")).st.events =
      [] :=
  ⟨rfl, rfl⟩

/-- C2 (amended).  Assume publishing succeeds and the topic's region segment
is resolvable.  Then on every `sys.exit(1)` exit of the orchestrator, every
region file has been deleted, and — provided the run got as far as fetching a
protection group — a notification was published whenever a topic identifier
was supplied.  The identifier-validation and region-resolution exits happen
before any fetch and notify no one; the unknown-peer-region edge and a
publish failure escape the claim (they end in an unhandled exception or a
leaked notifier-side file, covered by the counterexample and by C1). -/
theorem C2_error_exit_edges (env : Env) (docid : String)
    (topic : Option String) (hpub : env.publishOk = true)
    (htr : topicRegionResolvable topic) :
    (run_prechecks env docid topic).outcome = Outcome.exit1 →
    (run_prechecks env docid topic).st.files = [] ∧
    (topicTruthy topic = true →
      (∃ o, Event.fetchedDrpg o ∈ (run_prechecks env docid topic).st.events) →
      ∃ t2 ti b, Event.published t2 ti b ∈
        (run_prechecks env docid topic).st.events) := by
  by_cases hv : is_valid_ocid docid DRPG_OCID_PATTERN_match = true
  case neg =>
    have hv' : is_valid_ocid docid DRPG_OCID_PATTERN_match = false := by
      revert hv
      cases is_valid_ocid docid DRPG_OCID_PATTERN_match <;> simp
    simp only [run_prechecks, hv', Bool.not_false, if_true]
    intro _
    refine ⟨rfl, fun _ hex => absurd hex ?_⟩
    rintro ⟨o, ho⟩
    simp [logErr] at ho
  case pos =>
    by_cases hc : (topicTruthy topic &&
        !is_valid_ocid (topic.getD "") TOPIC_OCID_PATTERN_match) = true
    case pos =>
      simp only [run_prechecks, hv, Bool.not_true, Bool.false_eq_true,
        if_false, hc, if_true]
      intro _
      refine ⟨rfl, fun _ hex => absurd hex ?_⟩
      rintro ⟨o, ho⟩
      simp [logErr] at ho
    case neg =>
      have hc' : (topicTruthy topic &&
          !is_valid_ocid (topic.getD "") TOPIC_OCID_PATTERN_match) = false := by
        revert hc
        cases (topicTruthy topic &&
          !is_valid_ocid (topic.getD "") TOPIC_OCID_PATTERN_match) <;> simp
      have hval : topicTruthy topic = true →
          is_valid_ocid (topic.getD "") TOPIC_OCID_PATTERN_match = true := by
        intro ht
        by_contra hnv
        have hnv' : is_valid_ocid (topic.getD "") TOPIC_OCID_PATTERN_match =
            false := by
          revert hnv
          cases is_valid_ocid (topic.getD "") TOPIC_OCID_PATTERN_match <;> simp
        rw [ht, hnv'] at hc'
        simp at hc'
      cases hsp : (pySplit '.' docid.data).get? 3 with
      | none =>
          simp only [run_prechecks, hv, Bool.not_true, Bool.false_eq_true,
            if_false, hc', hsp]
          intro h
          exact absurd h (by decide)
      | some cs =>
          cases hnr : normalize_region (String.mk cs) with
          | none =>
              simp only [run_prechecks, hv, Bool.not_true, Bool.false_eq_true,
                if_false, hc', hsp, hnr]
              intro _
              refine ⟨rfl, fun _ hex => absurd hex ?_⟩
              rintro ⟨o, ho⟩
              simp [logErr] at ho
          | some region =>
              cases hg : env.getDrpg docid with
              | none =>
                  simp only [run_prechecks, hv, Bool.not_true,
                    Bool.false_eq_true, if_false, hc', hsp, hnr,
                    prepare_region_file, addEvent, get_drpg_details, hg,
                    logErr]
                  exact fun _ =>
                    ⟨(error_exit_good env topic "" docid _ _ hpub htr hval
                        (by simp)).2.1,
                     fun ht _ => (error_exit_good env topic "" docid _ _ hpub
                        htr hval (by simp)).2.2 ht⟩
              | some d =>
                  simp only [run_prechecks, hv, Bool.not_true,
                    Bool.false_eq_true, if_false, hc', hsp, hnr,
                    prepare_region_file, addEvent, get_drpg_details, hg]
                  exact fun h =>
                    ⟨(with_drpg_exit1 env topic docid _ d _ hpub htr hval
                        (by simp) h).1,
                     fun ht _ => (with_drpg_exit1 env topic docid _ d _ hpub
                        htr hval (by simp) h).2 ht⟩

/-- Witness for C2: a run whose standby protection group is ACTIVE but has no
active plans exits with status 1, deletes every region file, and publishes a
notification to the supplied topic. -/
theorem C2_error_exit_edges_witness :
    (run_prechecks envPrimary "ocid1.drprotectiongroup.oc1.iad.p1"
        (some "ocid1.onstopic.oc1.iad.t")).st.files = [] ∧
    (topicTruthy (some "ocid1.onstopic.oc1.iad.t") = true →
      (∃ o, Event.fetchedDrpg o ∈ (run_prechecks envPrimary
        "ocid1.drprotectiongroup.oc1.iad.p1"
        (some "ocid1.onstopic.oc1.iad.t")).st.events) →
      ∃ t2 ti b, Event.published t2 ti b ∈ (run_prechecks envPrimary
        "ocid1.drprotectiongroup.oc1.iad.p1"
        (some "ocid1.onstopic.oc1.iad.t")).st.events) :=
  C2_error_exit_edges envPrimary "ocid1.drprotectiongroup.oc1.iad.p1"
    (some "ocid1.onstopic.oc1.iad.t") rfl
    (by
      intro t ht cs hcs
      cases ht
      rw [show (pySplit '.' ("ocid1.onstopic.oc1.iad.t").data).get? 3 =
            some ['i', 'a', 'd'] from rfl] at hcs
      cases hcs
      decide)
    rfl

/-- C3 counterexample.  Calling `send_notification` with a topic OCID whose
region segment is unresolvable raises `SystemExit(1)` out of the function
(the `sys.exit(1)` inside the `try` block is not caught by
`except Exception`), terminating the process: notification failure is not
always swallowed. -/
theorem C3_counterexample :
    (send_notification envPub "N" "I" "ocid1.onstopic.oc1.zzz.t" "LOG" {}).2 =
      SnOut.sysExit1 := rfl

/-- C3 (amended).  Whenever the topic OCID's region segment is resolvable (or
absent), every failure inside `send_notification` is caught and logged and
the call returns normally; the sole exception to the claim is an
unresolvable topic region, on which the function exits the process with
status 1. -/
theorem C3_notifier_swallows (env : Env) (name ocid t contents : String)
    (st : St)
    (h : ∀ cs, (pySplit '.' t.data).get? 3 = some cs →
           normalize_region (String.mk cs) ≠ none) :
    (send_notification env name ocid t contents st).2 = SnOut.returned := by
  unfold send_notification
  cases hsp : (pySplit '.' t.data).get? 3 with
  | none => simp [hsp]
  | some cs =>
      cases hnr : normalize_region (String.mk cs) with
      | none => exact absurd hnr (h cs hsp)
      | some region =>
          simp only [hsp, hnr]
          cases hp : env.publishOk <;> simp [hp]

/-- Witness for C3 at a resolvable topic region. -/
theorem C3_notifier_swallows_witness :
    (send_notification envPub "N" "I" "ocid1.onstopic.oc1.iad.t" "LOG" {}).2 =
      SnOut.returned :=
  C3_notifier_swallows envPub "N" "I" "ocid1.onstopic.oc1.iad.t" "LOG" {}
    (by
      intro cs hcs
      rw [show (pySplit '.' ("ocid1.onstopic.oc1.iad.t").data).get? 3 =
            some ['i', 'a', 'd'] from rfl] at hcs
      cases hcs
      decide)

/-! ### C4: the published message -/

/-- C4 counterexample.  At a concrete publish the message body is
`"<name>: <id>\n\n" + <error log>` as claimed, but the title is
`"FSDR Precheck Failed for <name> - <id>"`, not the claimed
`"Precheck Failed for <name> - <id>"`. -/
theorem C4_counterexample :
    (send_notification envPub "N" "I" "ocid1.onstopic.oc1.iad.t" "LOG" {}).1.events =
      [Event.notifyCalled "N" "I" "ocid1.onstopic.oc1.iad.t",
       Event.created 0, Event.configuredClient "us-ashburn-1" 0,
       Event.published "ocid1.onstopic.oc1.iad.t"
         "FSDR Precheck Failed for N - I" "N: I\n\nLOG",
       Event.deleted 0] ∧
    "FSDR Precheck Failed for N - I" ≠ "Precheck Failed for N - I" :=
  ⟨rfl, by decide⟩

/-- C4 (amended).  Every message published by `send_notification` goes to the
given topic with body `"<name>: <id>\n\n" + <error log contents>` and title
`"FSDR Precheck Failed for <name> - <id>"` (the fixed template carries the
`FSDR ` prefix the claim omits). -/
theorem C4_message_content (env : Env) (name ocid t contents : String)
    (st : St) (tp ti bd : String)
    (hmem : Event.published tp ti bd ∈
      (send_notification env name ocid t contents st).1.events)
    (hnew : Event.published tp ti bd ∉ st.events) :
    tp = t ∧ ti = "FSDR Precheck Failed for " ++ name ++ " - " ++ ocid ∧
    bd = name ++ ": " ++ ocid ++ "\n\n" ++ contents := by
  unfold send_notification at hmem
  cases hsp : (pySplit '.' t.data).get? 3 with
  | none =>
      rw [hsp] at hmem
      simp only [addEvent, logErr, List.mem_append, List.mem_singleton] at hmem
      rcases hmem with h | h
      · exact absurd h hnew
      · exact absurd h (by simp)
  | some cs =>
      rw [hsp] at hmem
      cases hnr : normalize_region (String.mk cs) with
      | none =>
          simp only [hnr, addEvent, logErr, List.mem_append,
            List.mem_singleton] at hmem
          rcases hmem with h | h
          · exact absurd h hnew
          · exact absurd h (by simp)
      | some region =>
          cases hp : env.publishOk
          · simp only [hnr, hp, Bool.false_eq_true, if_false,
              prepare_region_file, addEvent, logErr, List.mem_append,
              List.mem_singleton] at hmem
            rcases hmem with ((h | h) | h) | h
            · exact absurd h hnew
            · exact absurd h (by simp)
            · exact absurd h (by simp)
            · exact absurd h (by simp)
          · simp only [hnr, hp, if_true, prepare_region_file, addEvent,
              unlink, List.mem_cons_self, if_pos, logErr, List.mem_append,
              List.mem_singleton] at hmem
            rcases hmem with ((((h | h) | h) | h) | h) | h
            · exact absurd h hnew
            · exact absurd h (by simp)
            · exact absurd h (by simp)
            · exact absurd h (by simp)
            · obtain ⟨h1, h2, h3⟩ := Event.published.inj h
              exact ⟨h1, h2, h3⟩
            · exact absurd h (by simp)

/-- Witness for C4: the amended content equations at a concrete publish. -/
theorem C4_message_content_witness :
    "ocid1.onstopic.oc1.iad.t" = "ocid1.onstopic.oc1.iad.t" ∧
    "FSDR Precheck Failed for N - I" =
      "FSDR Precheck Failed for " ++ "N" ++ " - " ++ "I" ∧
    "N: I\n\nLOG" = "N" ++ ": " ++ "I" ++ "\n\n" ++ "LOG" :=
  C4_message_content envPub "N" "I" "ocid1.onstopic.oc1.iad.t" "LOG" {}
    "ocid1.onstopic.oc1.iad.t" "FSDR Precheck Failed for N - I" "N: I\n\nLOG"
    (by decide) (by decide)


